import Mathlib

/-!
Verification development for the AutoCodeReview analysis core: a shallow
embedding of the cache layer (src/utils/cache.py), the structural parser
(src/parsers/python_parser.py), the complexity calculator
(src/analyzers/complexity_calculator.py), the security scanner's
memoization layer (src/analyzers/security_scanner.py), the diff model
(src/utils/diff_parser.py), the analysis pipeline
(src/analyzers/pipeline.py) and the agents' error handling
(src/agents/*.py), together with theorems settling the specification's
claims about them.

Modelling conventions: wall-clock time (`time.time()`) is an explicit
rational `now` argument; Python floats are rationals; a Python function
that may raise is embedded as a total function into `Except String`;
external libraries (`ast`, `radon`, `unidiff`, the bandit subprocess) are
boundary functions passed as arguments.
-/

namespace AutoCodeReview

/-! ## Security scanner data model (src/analyzers/security_scanner.py) -/

/-- Severity levels of a security finding (security_scanner.py lines 15-20). -/
inductive Severity
  | HIGH
  | MEDIUM
  | LOW
  | UNDEFINED
  deriving DecidableEq

/-- Confidence levels of a security finding (security_scanner.py lines 23-28). -/
inductive Confidence
  | HIGH
  | MEDIUM
  | LOW
  | UNDEFINED
  deriving DecidableEq

/-- Model of the `SecurityIssue` dataclass (security_scanner.py lines 31-59);
the free-form metadata fields (`line_range`, `cwe_id`, `more_info`,
`col_offset`) play no role in any claim and are omitted. -/
structure SecurityIssue where
  test_id : String
  test_name : String
  severity : Severity
  confidence : Confidence
  line_number : Nat
  code : String
  filename : String
  message : String
  deriving DecidableEq

/-- Model of `SecurityIssue.is_critical` (security_scanner.py lines 75-82):
severity HIGH and confidence HIGH. -/
def SecurityIssue.is_critical (i : SecurityIssue) : Bool :=
  i.severity == Severity.HIGH && i.confidence == Confidence.HIGH

/-- Model of the numeric part of `SecurityMetrics` (security_scanner.py lines
156-181); the two per-category/per-test dictionaries are not consulted by any
claim and are omitted. -/
structure SecurityMetrics where
  total_lines_scanned : Nat
  total_issues : Nat
  high_severity : Nat
  medium_severity : Nat
  low_severity : Nat
  undefined_severity : Nat
  high_confidence : Nat
  medium_confidence : Nat
  low_confidence : Nat
  undefined_confidence : Nat
  critical_issues : Nat
  deriving DecidableEq

/-- Model of `SecurityScanResult` (security_scanner.py lines 207-220);
`scan_time` is wall-clock metadata and is omitted. -/
structure SecurityScanResult where
  issues : List SecurityIssue
  metrics : SecurityMetrics
  bandit_version : String
  errors : List String
  deriving DecidableEq

/-! ## Structural parser data model (src/parsers/python_parser.py) -/

/-- Model of `FunctionInfo` (python_parser.py lines 8-19); the unused
`complexity` default field is omitted. -/
structure FunctionInfo where
  name : String
  line_start : Nat
  line_end : Nat
  args : List String
  returns : Option String
  docstring : Option String
  decorators : List String
  is_async : Bool
  deriving DecidableEq

/-- Model of `ClassInfo` (python_parser.py lines 21-30). -/
structure ClassInfo where
  name : String
  line_start : Nat
  line_end : Nat
  bases : List String
  methods : List FunctionInfo
  docstring : Option String
  decorators : List String
  deriving DecidableEq

/-- Model of `ImportInfo` (python_parser.py lines 32-38). -/
structure ImportInfo where
  module : String
  names : List String
  line : Nat
  is_from_import : Bool
  deriving DecidableEq

/-- Model of `ParseResult` (python_parser.py lines 40-48). -/
structure ParseResult where
  functions : List FunctionInfo
  classes : List ClassInfo
  imports : List ImportInfo
  docstring : Option String
  total_lines : Nat
  error : Option String
  deriving DecidableEq

/-- The default-constructed `ParseResult()`: empty collections, zero lines,
no error. -/
def emptyParseResult : ParseResult :=
  ⟨[], [], [], none, 0, none⟩

/-- Length of Python `str.splitlines()` restricted to the newline separator:
a trailing newline does not open an extra line. Only the claims' control flow
depends on this helper, never on its exact value. -/
def pySplitlinesLen (s : String) : Nat :=
  if s = "" then 0
  else
    let parts := s.splitOn "\n"
    if parts.getLast? = some "" then parts.length - 1 else parts.length

/-- Python truthiness of the guard `not code or not code.strip()`
(python_parser.py line 66, complexity_calculator.py line 76): true iff
every character of the source is whitespace, the empty string included. -/
def pyStrBlank (s : String) : Bool :=
  s.data.all Char.isWhitespace

/-- What the `ast.walk` loop of `PythonParser.parse` (python_parser.py lines
81-101) extracts from a successfully parsed module. The Python `ast` library
is external, so the parse-and-walk step is a boundary function supplied as an
argument below; `.error msg` models `ast.parse` raising an exception whose
`str` is `msg`. -/
structure ModuleInfo where
  functions : List FunctionInfo
  classes : List ClassInfo
  imports : List ImportInfo
  docstring : Option String

/-- Model of `PythonParser.parse` (python_parser.py lines 52-121). Empty or
whitespace-only source short-circuits to the default result; a parse failure
is caught and recorded in `error` with the collections left empty; the
function is total, so no exception ever escapes (the `except` clauses at
lines 110-119 catch everything). -/
def PythonParser.parse (ast_parse : String → Except String ModuleInfo)
    (code : String) : ParseResult :=
  if pyStrBlank code then emptyParseResult
  else
    let total_lines := pySplitlinesLen code
    match ast_parse code with
    | Except.ok m =>
        ⟨m.functions, m.classes, m.imports, m.docstring, total_lines, none⟩
    | Except.error e =>
        { emptyParseResult with total_lines := total_lines, error := some e }

/-! ## Complexity calculator (src/analyzers/complexity_calculator.py) -/

/-- Model of `FunctionComplexity` (complexity_calculator.py lines 16-23). -/
structure FunctionComplexity where
  name : String
  complexity : Nat
  line_start : Nat
  line_end : Nat
  rank : String
  deriving DecidableEq

/-- Model of `FileComplexity` (complexity_calculator.py lines 26-34). -/
structure FileComplexity where
  functions : List FunctionComplexity
  maintainability_index : ℚ
  lines_of_code : Nat
  logical_lines : Nat
  comment_lines : Nat
  blank_lines : Nat
  deriving DecidableEq

/-- Model of the `FileComplexity.average_complexity` property
(complexity_calculator.py lines 36-41). -/
def FileComplexity.average_complexity (fc : FileComplexity) : ℚ :=
  if fc.functions.isEmpty then 0
  else ((fc.functions.map (fun f => (f.complexity : ℚ))).sum) / fc.functions.length

/-- Model of the `FileComplexity.max_complexity` property
(complexity_calculator.py lines 43-48). -/
def FileComplexity.max_complexity (fc : FileComplexity) : Nat :=
  if fc.functions.isEmpty then 0
  else (fc.functions.map (fun f => f.complexity)).foldl max 0

/-- Raw line metrics as returned by `radon.raw.analyze`
(complexity_calculator.py lines 184-189). -/
structure RawMetrics where
  loc : Nat
  lloc : Nat
  comments : Nat
  blank : Nat
  deriving DecidableEq

/-- Python `round(x, 2)` modelled as half-up rounding to two decimals.
Python rounds halves to even; no theorem below touches a half case, so the
difference is immaterial. -/
def roundTo2 (q : ℚ) : ℚ :=
  (⌊q * 100 + 1 / 2⌋ : ℤ) / 100

/-- Model of `ComplexityCalculator._calculate_cyclomatic_complexity`
(complexity_calculator.py lines 118-153): the `radon.complexity.cc_visit`
boundary call, with any failure caught and degraded to an empty list. -/
def ComplexityCalculator.calcCyclomatic
    (cc_visit : String → Except String (List FunctionComplexity))
    (code : String) : List FunctionComplexity :=
  match cc_visit code with
  | Except.ok fs => fs
  | Except.error _ => []

/-- Model of `ComplexityCalculator._calculate_maintainability_index`
(complexity_calculator.py lines 155-171): the `radon.metrics.mi_visit`
boundary call rounded to two decimals, with any failure caught and degraded
to 0. -/
def ComplexityCalculator.calcMaintainability
    (mi_visit : String → Except String ℚ) (code : String) : ℚ :=
  match mi_visit code with
  | Except.ok mi => roundTo2 mi
  | Except.error _ => 0

/-- Model of `ComplexityCalculator._calculate_loc` (complexity_calculator.py
lines 173-192): the `radon.raw.analyze` boundary call, with any failure
caught and degraded to all-zero counts. -/
def ComplexityCalculator.calcLoc
    (raw_analyze : String → Except String RawMetrics) (code : String) :
    RawMetrics :=
  match raw_analyze code with
  | Except.ok r => r
  | Except.error _ => ⟨0, 0, 0, 0⟩

/-- Model of `ComplexityCalculator.calculate` (complexity_calculator.py lines
65-116). Empty or whitespace-only source returns maintainability index 100
with everything else zero. Each of the three sub-computations catches its own
failures (lines 150-151, 169-171, 190-192), so the outer `except` at lines
106-116 never fires and the function is total: a sub-computation failure
degrades only that sub-computation's part of the result. -/
def ComplexityCalculator.calculate
    (cc_visit : String → Except String (List FunctionComplexity))
    (mi_visit : String → Except String ℚ)
    (raw_analyze : String → Except String RawMetrics)
    (code : String) : FileComplexity :=
  if pyStrBlank code then ⟨[], 100, 0, 0, 0, 0⟩
  else
    let functions := ComplexityCalculator.calcCyclomatic cc_visit code
    let mi := ComplexityCalculator.calcMaintainability mi_visit code
    let loc_metrics := ComplexityCalculator.calcLoc raw_analyze code
    ⟨functions, mi, loc_metrics.loc, loc_metrics.lloc, loc_metrics.comments,
      loc_metrics.blank⟩

/-! ## Cache (src/utils/cache.py) -/

/-- Model of the `CacheStats` dataclass (cache.py lines 11-16). -/
structure CacheStats where
  hits : Nat
  misses : Nat
  evictions : Nat
  size : Nat
  deriving DecidableEq

/-- Model of the `CacheEntry` dataclass (cache.py lines 27-33); wall-clock
times are rationals. -/
structure CacheEntry (V : Type) where
  value : V
  created_at : ℚ
  last_accessed : ℚ
  ttl : Option ℚ

/-- Model of `CacheEntry.is_expired` (cache.py lines 35-39): never expired
without a ttl, otherwise expired when the time since the LAST ACCESS (not
creation) exceeds the ttl. -/
def CacheEntry.is_expired {V : Type} (e : CacheEntry V) (now : ℚ) : Bool :=
  match e.ttl with
  | none => false
  | some t => decide (now - e.last_accessed > t)

/-- Model of the `Cache` class state (cache.py lines 47-58). The
`OrderedDict` is an association list whose head is the least-recently-used
entry; the mutex is dropped because every operation here is an atomic
function on the state. -/
structure Cache (V : Type) where
  max_size : Nat
  default_ttl : Option ℚ
  entries : List (String × CacheEntry V)
  stats : CacheStats

/-- Keys of the cache in recency order (least recently used first). -/
def Cache.keys {V : Type} (c : Cache V) : List String :=
  c.entries.map Prod.fst

/-- Model of `Cache.get` (cache.py lines 65-82): a missing key is a miss; an
expired entry is deleted and counts as a miss; a hit moves the key to the
most-recently-used end (`move_to_end`) and refreshes its `last_accessed`
(`entry.access()`), returning the stored value. -/
def Cache.get {V : Type} (c : Cache V) (now : ℚ) (key : String) :
    Option V × Cache V :=
  match c.entries.find? (fun p => p.1 == key) with
  | none =>
      (none, { c with stats := { c.stats with misses := c.stats.misses + 1 } })
  | some (_, e) =>
      if e.is_expired now then
        let entries := c.entries.filter (fun p => p.1 != key)
        let stats : CacheStats :=
          ⟨c.stats.hits, c.stats.misses + 1, c.stats.evictions, entries.length⟩
        (none, { c with entries := entries, stats := stats })
      else
        let entries := c.entries.filter (fun p => p.1 != key) ++
          [(key, { e with last_accessed := now })]
        (some e.value,
          { c with entries := entries,
                   stats := { c.stats with hits := c.stats.hits + 1 } })

/-- Model of `Cache.set` (cache.py lines 84-115): a `none` ttl falls back to
the cache's default; an existing key is replaced and moved to the
most-recently-used end; a new key is appended, and if the size bound is then
exceeded the first (least-recently-used) entry is evicted. -/
def Cache.set {V : Type} (c : Cache V) (now : ℚ) (key : String) (value : V)
    (ttl : Option ℚ) : Cache V :=
  let t := match ttl with
    | none => c.default_ttl
    | some x => some x
  let entry : CacheEntry V := ⟨value, now, now, t⟩
  if (c.entries.find? (fun p => p.1 == key)).isSome then
    let entries := c.entries.filter (fun p => p.1 != key) ++ [(key, entry)]
    { c with entries := entries,
             stats := { c.stats with size := entries.length } }
  else
    let entries := c.entries ++ [(key, entry)]
    if entries.length > c.max_size then
      let entries2 := entries.tail
      let stats : CacheStats :=
        ⟨c.stats.hits, c.stats.misses, c.stats.evictions + 1, entries2.length⟩
      { c with entries := entries2, stats := stats }
    else
      { c with entries := entries,
               stats := { c.stats with size := entries.length } }

/-- Result of one call through the `cached` decorator's wrapper: the value
returned to the caller, the cache state afterwards, and whether the wrapped
function body was executed (that is, whether the expensive work was actually
re-invoked rather than served from the cache). -/
structure CachedCallResult (V : Type) where
  result : V
  cache : Cache V
  executed : Bool

/-- Model of the `cached` decorator's wrapper body (cache.py lines 205-226).
The predicate `is_none` models the Python test `cached_value is not None`
for the wrapped function's return type: a stored value satisfying `is_none`
is indistinguishable from a miss, so the body runs again. After executing,
the result is always stored (`cache.set`). -/
def cachedCall {V : Type} (cache : Cache V) (now : ℚ) (key : String)
    (is_none : V → Bool) (ttl : Option ℚ) (func : Unit → V) :
    CachedCallResult V :=
  let g := cache.get now key
  let run : Cache V → CachedCallResult V := fun c =>
    let result := func ()
    ⟨result, c.set now key result ttl, true⟩
  match g.1 with
  | some v => if is_none v then run g.2 else ⟨v, g.2, false⟩
  | none => run g.2

/-- Model of the default cache key of `cached` (cache.py line 211): function
name, `str(args)` and `str(kwargs)` joined by colons. -/
def defaultCacheKey (func_name args_str kwargs_str : String) : String :=
  func_name ++ ":" ++ args_str ++ ":" ++ kwargs_str

/-- Model of the key function of `cache_by_hash` (cache.py lines 247-257):
the literal prefix `hash:`, then the content hash of the first positional
argument, then the printed remaining arguments. `calculate_hash`
(src/utils/file_handler.py lines 96-106, an MD5 hex digest) is the abstract
`hash_fn`. -/
def cacheByHashKey (hash_fn : String → String) (content : String)
    (other_args_str : String) : String :=
  "hash:" ++ hash_fn content ++ ":" ++ other_args_str

/-- Python `str` of the positional-argument tuple `(self, code, filename)`
that `SecurityScanner.scan` receives when called as
`self.security_analyzer.scan(code, filename)` (pipeline.py line 333). The
quotation marks Python places around string elements of a tuple are omitted;
nothing proved below depends on them. -/
def scanArgsStr (self_repr code filename : String) : String :=
  "(" ++ self_repr ++ ", " ++ code ++ ", " ++ filename ++ ")"

/-- The cache key `SecurityScanner.scan` is actually memoized under:
`scan` is decorated with `@cache_analysis_result()` (security_scanner.py
line 346), which is `cached(get_analysis_cache(), ttl=1800)` with no
`key_func` (cache.py lines 273-275), so the DEFAULT key — function name plus
the printed argument tuple, the scanner instance included — is used. No
content hash is involved. -/
def scanCacheKey (self_repr code filename : String) : String :=
  defaultCacheKey "scan" (scanArgsStr self_repr code filename) "\x7b\x7d"

/-- The module-level analysis cache instance (cache.py line 168):
`Cache(max_size=300, default_ttl=1800)`, initially empty with zeroed stats. -/
def analysisCacheInit (V : Type) : Cache V :=
  ⟨300, some 1800, [], ⟨0, 0, 0, 0⟩⟩

/-- One call of the memoized `SecurityScanner.scan` seen through the cache
layer: key from the default key function, ttl 1800 seconds, and the scan
body (the bandit subprocess invocation and parsing, security_scanner.py
lines 353-410) abstracted as `body`. `scan` always returns a
`SecurityScanResult`, never Python `None`, so `is_none` is constantly
false. -/
def scanMemoized (cache : Cache SecurityScanResult) (now : ℚ)
    (self_repr code filename : String)
    (body : Unit → SecurityScanResult) : CachedCallResult SecurityScanResult :=
  cachedCall cache now (scanCacheKey self_repr code filename)
    (fun _ => false) (some 1800) body

/-! ## Analysis pipeline (src/analyzers/pipeline.py) -/

/-- Model of the `FunctionAnalysis` dataclass (pipeline.py lines 66-94). -/
structure FunctionAnalysis where
  name : String
  line_start : Nat
  line_end : Nat
  args : List String
  returns : Option String
  docstring : Option String
  decorators : List String
  is_async : Bool
  complexity : Nat
  complexity_rank : String
  security_issues : List SecurityIssue
  is_complex : Bool
  is_undocumented : Bool
  has_security_issues : Bool
  has_critical_security_issues : Bool
  is_changed : Bool
  deriving DecidableEq

instance : Inhabited FunctionAnalysis :=
  ⟨⟨"", 0, 0, [], none, none, [], false, 0, "", [], false, false, false,
    false, false⟩⟩

/-- Model of the `FileAnalysis` dataclass (pipeline.py lines 122-157); the
wall-clock `analysis_time` field is omitted, and the changed-line set is a
list. -/
structure FileAnalysis where
  filename : String
  language : String
  source_code : String
  parse_result : Option ParseResult
  complexity_result : Option FileComplexity
  security_result : Option SecurityScanResult
  functions : List FunctionAnalysis
  total_lines : Nat
  total_functions : Nat
  total_classes : Nat
  average_complexity : ℚ
  max_complexity : Nat
  maintainability_index : ℚ
  total_security_issues : Nat
  critical_security_issues : Nat
  high_severity_issues : Nat
  error : Option String
  is_changed : Bool
  changed_line_numbers : List Nat
  deriving DecidableEq

/-- Model of the `FileAnalysis.has_errors` property (pipeline.py lines
159-162). -/
def FileAnalysis.has_errors (f : FileAnalysis) : Bool :=
  f.error.isSome

/-- Model of the `FileAnalysis.quality_score` property (pipeline.py lines
164-185), translated statement by statement: an errored file scores 0; the
base score is the maintainability index unless that index is falsy (0.0 in
Python), in which case 50; complexity above 10 and security counts subtract
penalties; the result is clamped to [0, 100]. -/
def FileAnalysis.quality_score (f : FileAnalysis) : ℚ :=
  if f.has_errors then 0
  else
    let score : ℚ :=
      if f.maintainability_index ≠ 0 then f.maintainability_index else 50
    let score :=
      if f.average_complexity > 10 then
        score - (f.average_complexity - 10) * 2
      else score
    let score := score - f.critical_security_issues * 10
    let score := score - f.high_severity_issues * 5
    max 0 (min 100 score)

/-- Python truthiness of the optional changed-lines set (`if changed_lines:`
at pipeline.py line 528 and `bool(changed_lines)` at line 573): false for
`None` and for an empty set. -/
def changedLinesTruthy (changed_lines : Option (List Nat)) : Bool :=
  match changed_lines with
  | none => false
  | some ls => !ls.isEmpty

/-- Python truthiness test `not parsed_func.docstring` (pipeline.py line
548): true for `None` and for the empty string. -/
def pyOptStrFalsy (s : Option String) : Bool :=
  match s with
  | none => true
  | some t => t == ""

/-- Construction of one `FunctionAnalysis` inside
`AnalysisPipeline._aggregate_results` (pipeline.py lines 514-553). The
complexity join at line 516 is
`next((c for c in complexity_result.functions if c.name == parsed_func.name), None)`:
the FIRST complexity entry with the same name — line ranges are not
consulted. Security issues are filtered by line span (lines 521-524), and
the changed flag is computed from the changed-line set (lines 527-532). -/
def buildFunctionAnalysis (complexity_threshold : Nat)
    (complexity_functions : List FunctionComplexity)
    (issues : List SecurityIssue) (changed_lines : Option (List Nat))
    (pf : FunctionInfo) : FunctionAnalysis :=
  let complexity_data := complexity_functions.find? (fun c => c.name == pf.name)
  let func_security_issues := issues.filter (fun i =>
    decide (pf.line_start ≤ i.line_number) && decide (i.line_number ≤ pf.line_end))
  let func_changed :=
    if changedLinesTruthy changed_lines then
      (changed_lines.getD []).any (fun l =>
        decide (pf.line_start ≤ l) && decide (l ≤ pf.line_end))
    else false
  { name := pf.name
    line_start := pf.line_start
    line_end := pf.line_end
    args := pf.args
    returns := pf.returns
    docstring := pf.docstring
    decorators := pf.decorators
    is_async := pf.is_async
    complexity := match complexity_data with
      | some c => c.complexity
      | none => 0
    complexity_rank := match complexity_data with
      | some c => c.rank
      | none => "A"
    security_issues := func_security_issues
    is_complex := match complexity_data with
      | some c => decide (c.complexity > complexity_threshold)
      | none => false
    is_undocumented := pyOptStrFalsy pf.docstring
    has_security_issues := decide (func_security_issues.length > 0)
    has_critical_security_issues := func_security_issues.any (fun i => i.is_critical)
    is_changed := func_changed }

/-- Model of `AnalysisPipeline._aggregate_results` (pipeline.py lines
503-577): one `FunctionAnalysis` per parsed function in order, and the
file-level fields copied from the three stage results. `source_code` is
assigned by the caller (line 352) and is empty here. -/
def AnalysisPipeline.aggregate_results (complexity_threshold : Nat)
    (filename : String) (parse_result : ParseResult)
    (complexity_result : FileComplexity)
    (security_result : SecurityScanResult)
    (changed_lines : Option (List Nat)) : FileAnalysis :=
  let functions := parse_result.functions.map
    (buildFunctionAnalysis complexity_threshold complexity_result.functions
      security_result.issues changed_lines)
  { filename := filename
    language := "python"
    source_code := ""
    parse_result := some parse_result
    complexity_result := some complexity_result
    security_result := some security_result
    functions := functions
    total_lines := parse_result.total_lines
    total_functions := parse_result.functions.length
    total_classes := parse_result.classes.length
    average_complexity := complexity_result.average_complexity
    max_complexity := complexity_result.max_complexity
    maintainability_index := complexity_result.maintainability_index
    total_security_issues := security_result.metrics.total_issues
    critical_security_issues := security_result.metrics.critical_issues
    high_severity_issues := security_result.metrics.high_severity
    error := none
    is_changed := changedLinesTruthy changed_lines
    changed_line_numbers := changed_lines.getD [] }

/-! ## Diff model and the diff-driven entry point
(src/utils/diff_parser.py, pipeline.py lines 458-501) -/

/-- Model of the `ChangedLine` dataclass (diff_parser.py lines 9-15). -/
structure ChangedLine where
  line_number : Nat
  old_line_number : Option Nat
  content : String
  change_type : String
  deriving DecidableEq

/-- Model of the `ChangedFile` dataclass (diff_parser.py lines 17-30). -/
structure ChangedFile where
  filename : String
  old_filename : Option String
  is_new_file : Bool
  is_deleted_file : Bool
  is_renamed : Bool
  is_binary : Bool
  added_lines : List ChangedLine
  removed_lines : List ChangedLine
  modified_lines : List ChangedLine
  total_additions : Nat
  total_deletions : Nat
  deriving DecidableEq

/-- Model of the `ChangedFile.changed_line_numbers` PROPERTY (diff_parser.py
lines 32-38): the set (here a list) of line numbers of added and modified
lines. Being a `@property`, an attribute access already yields this value. -/
def ChangedFile.changed_line_numbers (f : ChangedFile) : List Nat :=
  (f.added_lines ++ f.modified_lines).map (fun l => l.line_number)

/-- Model of the `DiffResult` dataclass (diff_parser.py lines 48-54). -/
structure DiffResult where
  files : List ChangedFile
  total_files_changed : Nat
  total_additions : Nat
  total_deletions : Nat
  deriving DecidableEq

/-- Model of the `DiffResult.get_python_files` PROPERTY (diff_parser.py
lines 56-59): the files whose name ends in `.py`. Being a `@property`, an
attribute access already yields this list. -/
def DiffResult.get_python_files (d : DiffResult) : List ChangedFile :=
  d.files.filter (fun f => f.filename.endsWith ".py")

/-- CPython semantics of applying call syntax `()` to a list object: a
`TypeError`. In pipeline.py line 469 the attribute access
`diff_result.get_python_files` already returns the list (it is a property),
so the trailing `()` calls that list. -/
def pyCallList (_ : List ChangedFile) : Except String (List ChangedFile) :=
  Except.error "TypeError: list object is not callable"

/-- CPython semantics of applying call syntax `()` to a set object: a
`TypeError`. In pipeline.py line 490 the attribute access
`file_change.changed_line_numbers` already returns the set (it is a
property), so the trailing `()` calls that set. -/
def pyCallSet (_ : List Nat) : Except String (List Nat) :=
  Except.error "TypeError: set object is not callable"

/-- Model of one entry of the `files` argument of
`AnalysisPipeline.analyse_batch` (pipeline.py lines 404-429 and 486-492). -/
structure FileToAnalyze where
  code : String
  filename : String
  changed_lines : Option (List Nat)

/-- Model of the `AnalysisBatchResult` dataclass (pipeline.py lines
210-214). Its only keyword fields are `files` and `total_analysis_time`. -/
structure AnalysisBatchResult where
  files : List FileAnalysis
  total_analysis_time : ℚ

/-- Model of `AnalysisPipeline.analyze_pr_changes` (pipeline.py lines
458-501). Boundaries passed as functions: `parse_diff` wraps the external
`unidiff` library and may raise on malformed diffs (diff_parser.py lines
108-110), `analyse_batch` is the batch analyzer, and `get_file_content` is
the caller-supplied accessor, which may raise. An `Except.error` result
models an uncaught Python exception escaping the method. The per-file `try`
(pipeline.py lines 484-495) catches any exception and skips the file. -/
def AnalysisPipeline.analyze_pr_changes
    (parse_diff : String → Except String DiffResult)
    (analyse_batch : List FileToAnalyze → AnalysisBatchResult)
    (diff_text : String)
    (get_file_content : String → Except String String) :
    Except String AnalysisBatchResult := do
  let diff_result ← parse_diff diff_text
  let python_files ← pyCallList diff_result.get_python_files
  if python_files.isEmpty then
    -- pipeline.py lines 472-476 run `AnalysisBatchResult(files=[],
    -- analysis_time=0.0)`; the dataclass has no `analysis_time` keyword
    -- (its field is `total_analysis_time`), so the constructor call itself
    -- raises a TypeError.
    Except.error "TypeError: unexpected keyword argument analysis_time"
  else
    let files_to_analyze := python_files.foldl (fun acc file_change =>
      if file_change.is_deleted_file || file_change.is_binary then acc
      else
        let attempt : Except String FileToAnalyze := do
          let code ← get_file_content file_change.filename
          let changed ← pyCallSet file_change.changed_line_numbers
          pure ⟨code, file_change.filename, some changed⟩
        match attempt with
        | Except.ok fta => acc ++ [fta]
        | Except.error _ => acc) []
    pure (analyse_batch files_to_analyze)

/-! ## Agent error handling (src/agents/*.py) -/

/-- Model of the `AgentSuggestion` dataclass fields that matter to the error
handling claims (base_agent.py); the suggestion payload is opaque here. -/
structure AgentSuggestion where
  title : String
  description : String
  severity : String
  deriving DecidableEq

/-- Model of `AgentState` (base_agent.py lines 80-98): suggestion list,
completion flag and optional error string (messages and the context map are
not consulted by any claim). -/
structure AgentState where
  suggestions : List AgentSuggestion
  completed : Bool
  error : Option String
  deriving DecidableEq

/-- Model of `AgentState.set_completed` (base_agent.py lines 96-98). -/
def AgentState.set_completed (s : AgentState) (completed : Bool) : AgentState :=
  { s with completed := completed }

/-- The fresh state produced by `BaseAgent.reset_state` at the top of every
`analyze` call: no suggestions, not completed, no error. -/
def AgentState.fresh : AgentState :=
  ⟨[], false, none⟩

/-- Model of the `except` handler of `CodeAnalyzerAgent.analyze`
(code_analyzer_agent.py lines 92-95): `self.state.set_completed(True)` —
completed is set to TRUE — followed by `self.state.error = str(e)`. -/
def CodeAnalyzerAgent.on_error (e : String) (s : AgentState) : AgentState :=
  { s.set_completed true with error := some e }

/-- Model of the `except` handler shared by `SecurityAgent.analyze`
(security_agent.py lines 113-116) and by the documentation, performance,
style and test agents: `self.state.error = str(e)` and
`self.state.completed = False`. -/
def SecurityAgent.on_error (e : String) (s : AgentState) : AgentState :=
  { s with error := some e, completed := false }

/-- The try/except skeleton shared by every agent's `analyze`: reset the
state, run the body (which mutates the state and may raise, returning the
state reached so far together with an optional exception message), and on an
exception apply the agent's handler to that state. The function is total:
no exception escapes `analyze`. -/
def agentAnalyze (handler : String → AgentState → AgentState)
    (body : AgentState → AgentState × Option String) : AgentState :=
  match body AgentState.fresh with
  | (s, none) => s
  | (s, some e) => handler e s

/-! ## Helper lemmas about the cache's association list -/

theorem map_fst_filter_ne {V : Type} (l : List (String × CacheEntry V))
    (key : String) :
    (l.filter (fun p => p.1 != key)).map Prod.fst
      = (l.map Prod.fst).filter (fun k => k != key) := by
  induction l with
  | nil => rfl
  | cons a t ih =>
    by_cases ha : (a.1 != key) = true
    · simp [List.filter_cons, ha, ih]
    · simp [List.filter_cons, ha, ih]

theorem length_filter_ne_lt {V : Type} (l : List (String × CacheEntry V))
    (key : String) (h : (l.find? (fun q => q.1 == key)).isSome = true) :
    (l.filter (fun p => p.1 != key)).length < l.length := by
  induction l with
  | nil => simp [List.find?] at h
  | cons a t ih =>
    by_cases ha : (a.1 == key) = true
    · have hf : (a.1 != key) = false := by simp [bne, ha]
      simp only [List.filter_cons, hf, Bool.false_eq_true, if_false,
        List.length_cons]
      exact Nat.lt_succ_of_le (List.length_filter_le _ _)
    · have hf : (a.1 != key) = true := by simp [bne, ha]
      have hh : (t.find? (fun q => q.1 == key)).isSome = true := by
        rwa [List.find?_cons_of_neg _ (by simp [ha])] at h
      simp only [List.filter_cons, hf, if_true, List.length_cons]
      exact Nat.succ_lt_succ (ih hh)

theorem find?_eq_none_of_not_mem_keys {V : Type}
    (l : List (String × CacheEntry V)) (key : String)
    (h : key ∉ l.map Prod.fst) :
    l.find? (fun q => q.1 == key) = none := by
  rw [List.find?_eq_none]
  intro x hx
  simp only [Bool.not_eq_true, beq_eq_false_iff_ne]
  intro hcontra
  exact h (hcontra ▸ List.mem_map_of_mem Prod.fst hx)

/-! ## Theorems -/

/-- C2: the claim says every agent's `analyze`, on an internal error, sets
the state's error field, marks the state NOT-completed and returns without
raising. The embedded code shows `CodeAnalyzerAgent`'s handler sets
`completed = true` (via `set_completed(True)`) while recording the error —
contradicting the claim and the convention of the five other agents, whose
handler (here `SecurityAgent.on_error`) yields `completed = false`. The
no-raise part holds: `agentAnalyze` is total. -/
theorem c2_code_analyzer_error_marks_completed_true :
    (agentAnalyze CodeAnalyzerAgent.on_error
        (fun s => (s, some "boom"))).completed = true
    ∧ (agentAnalyze CodeAnalyzerAgent.on_error
        (fun s => (s, some "boom"))).error = some "boom"
    ∧ (agentAnalyze SecurityAgent.on_error
        (fun s => (s, some "boom"))).completed = false :=
  ⟨rfl, rfl, rfl⟩

/-- C3: the claim says `analyze_pr_changes` filters the parsed diff to
Python files, skips deleted/binary files and feeds the rest into the batch
analysis. In the code, `diff_result.get_python_files()` (pipeline.py line
469) calls the VALUE of the `@property` `get_python_files` — a list — so a
`TypeError` escapes the method for every diff whose parse succeeds, before
any file is analyzed. -/
theorem c3_analyze_pr_changes_always_raises
    (parse_diff : String → Except String DiffResult)
    (analyse_batch : List FileToAnalyze → AnalysisBatchResult)
    (diff_text : String)
    (get_file_content : String → Except String String)
    (d : DiffResult) (h : parse_diff diff_text = Except.ok d) :
    AnalysisPipeline.analyze_pr_changes parse_diff analyse_batch diff_text
        get_file_content
      = Except.error "TypeError: list object is not callable" := by
  unfold AnalysisPipeline.analyze_pr_changes
  rw [h]
  rfl

/-- An example diff result: one added line in one Python file. -/
def diffResultW : DiffResult :=
  ⟨[⟨"a.py", none, false, false, false, false,
      [⟨1, none, "x = 1", "added"⟩], [], [], 1, 0⟩], 1, 1, 0⟩

/-- Witness for C3: a concrete diff whose parse yields one non-deleted,
non-binary Python file still makes `analyze_pr_changes` raise. -/
theorem c3_analyze_pr_changes_always_raises_witness :
    AnalysisPipeline.analyze_pr_changes (fun _ => Except.ok diffResultW)
        (fun _ => ⟨[], 0⟩) "diff --git a/a.py b/a.py"
        (fun _ => Except.ok "x = 1")
      = Except.error "TypeError: list object is not callable" :=
  c3_analyze_pr_changes_always_raises _ _ _ _ diffResultW rfl

/-- C4: for every file analysis, `quality_score` equals the maintainability
index (50 when that index is absent, i.e. the falsy 0.0) minus
2·max(0, averageComplexity − 10), minus 10·criticalCount, minus
5·highSeverityCount, clamped to [0, 100]; and an errored file scores 0
regardless of the formula. -/
theorem c4_quality_score_formula (f : FileAnalysis) :
    f.quality_score =
      if f.error.isSome then 0
      else
        max 0 (min 100
          ((if f.maintainability_index = 0 then 50 else f.maintainability_index)
            - 2 * max 0 (f.average_complexity - 10)
            - 10 * (f.critical_security_issues : ℚ)
            - 5 * (f.high_severity_issues : ℚ))) := by
  unfold FileAnalysis.quality_score FileAnalysis.has_errors
  by_cases he : f.error.isSome
  · simp [he]
  · simp only [he, Bool.false_eq_true, if_false, eq_self_iff_true]
    have hbase : (if f.maintainability_index ≠ 0 then f.maintainability_index
        else (50 : ℚ))
        = (if f.maintainability_index = 0 then 50 else f.maintainability_index) := by
      by_cases hmi : f.maintainability_index = 0 <;> simp [hmi]
    rw [hbase]
    by_cases havg : f.average_complexity > 10
    · have hmax : max 0 (f.average_complexity - 10) = f.average_complexity - 10 := by
        apply max_eq_right
        linarith
      rw [if_pos havg, hmax]
      ring_nf
    · have hmax : max 0 (f.average_complexity - 10) = 0 := by
        apply max_eq_left
        linarith [not_lt.mp havg]
      rw [if_neg havg, hmax]
      ring_nf

/-- C6: the Cache never exceeds `max_size` — `get` never grows the entry
list, `set` preserves the bound, a `set` of a fresh key at capacity evicts
exactly the least-recently-used entry (the head of the recency order, so the
surviving keys are the old tail plus the new key at the most-recently-used
end), and a successful `get` moves the accessed key to the
most-recently-used end, protecting it from the next eviction. -/
theorem c6_cache_lru_bound_and_eviction {V : Type} (c : Cache V) (now : ℚ)
    (key : String) (v : V) (ttl : Option ℚ) :
    ((c.get now key).2.entries.length ≤ c.entries.length)
    ∧ (c.entries.length ≤ c.max_size →
        (c.set now key v ttl).entries.length ≤ c.max_size)
    ∧ (0 < c.max_size → key ∉ c.keys → c.entries.length = c.max_size →
        (c.set now key v ttl).keys = c.keys.tail ++ [key])
    ∧ (∀ p, c.entries.find? (fun q => q.1 == key) = some p →
        p.2.is_expired now = false →
        (c.get now key).1 = some p.2.value
        ∧ (c.get now key).2.keys
            = (c.keys.filter (fun k => k != key)) ++ [key]) := by
  refine ⟨?_, ?_, ?_, ?_⟩
  · -- get never grows the entry list
    unfold Cache.get
    cases hf : c.entries.find? (fun q => q.1 == key) with
    | none => simp
    | some p =>
      obtain ⟨k1, e⟩ := p
      by_cases hexp : e.is_expired now = true
      · simp [hexp]
        exact List.length_filter_le _ _
      · simp [hexp]
        have hlt := length_filter_ne_lt c.entries key (by rw [hf]; rfl)
        omega
  · -- set preserves the size bound
    intro hle
    unfold Cache.set
    by_cases hf : (c.entries.find? (fun q => q.1 == key)).isSome = true
    · simp only [hf, if_true]
      have hlt := length_filter_ne_lt c.entries key hf
      simp only [List.length_append, List.length_cons, List.length_nil]
      omega
    · simp only [hf, Bool.false_eq_true, if_false]
      by_cases hover : (c.entries ++
          [(key, (⟨v, now, now, match ttl with
            | none => c.default_ttl
            | some x => some x⟩ : CacheEntry V))]).length > c.max_size
      · simp only [hover, if_true]
        simp only [List.length_append, List.length_cons, List.length_nil] at hover ⊢
        simp only [List.length_tail, List.length_append, List.length_cons,
          List.length_nil]
        omega
      · simp only [hover, if_false]
        simp only [List.length_append, List.length_cons, List.length_nil] at hover ⊢
        omega
  · -- eviction at capacity removes exactly the head (LRU) entry
    intro hpos hnotmem hlen
    unfold Cache.set
    have hf : c.entries.find? (fun q => q.1 == key) = none :=
      find?_eq_none_of_not_mem_keys c.entries key hnotmem
    simp only [hf, Option.isSome_none, Bool.false_eq_true, if_false]
    have hne : c.entries ≠ [] := by
      intro hnil
      rw [hnil] at hlen
      simp at hlen
      omega
    obtain ⟨a, rest, hrest⟩ := List.exists_cons_of_ne_nil hne
    have hover : (c.entries ++
        [(key, (⟨v, now, now, match ttl with
          | none => c.default_ttl
          | some x => some x⟩ : CacheEntry V))]).length > c.max_size := by
      simp only [List.length_append, List.length_cons, List.length_nil]
      omega
    simp only [hover, if_true]
    unfold Cache.keys
    rw [hrest]
    simp
  · -- a hit moves the key to the most-recently-used end
    intro p hfind hexp
    obtain ⟨k1, e⟩ := p
    unfold Cache.get
    rw [hfind]
    constructor
    · simp [hexp]
    · simp [hexp, Cache.keys, map_fst_filter_ne]

/-- A concrete cache used to witness C6: three live entries `a`, `b`, `c`
(in least-to-most-recently-used order) at capacity 3. -/
def cacheW : Cache Nat :=
  ⟨3, none,
    [("a", ⟨1, 0, 0, none⟩), ("b", ⟨2, 0, 0, none⟩), ("c", ⟨3, 0, 0, none⟩)],
    ⟨0, 0, 0, 3⟩⟩

/-- Witness for C6 at a concrete cache: a fresh key at capacity evicts
exactly the head key `a`, and a `get` of `a` moves it to the
most-recently-used end. -/
theorem c6_cache_lru_bound_and_eviction_witness :
    (cacheW.set 1 "d" 4 none).keys = ["b", "c", "d"]
    ∧ (cacheW.get 1 "a").1 = some 1
    ∧ (cacheW.get 1 "a").2.keys = ["b", "c", "a"] := by
  refine ⟨?_, ?_, ?_⟩
  · exact (c6_cache_lru_bound_and_eviction cacheW 1 "d" 4 none).2.2.1
      (by decide) (by decide) (by decide)
  · exact ((c6_cache_lru_bound_and_eviction cacheW 1 "a" 4 none).2.2.2
      ("a", ⟨1, 0, 0, none⟩) rfl rfl).1
  · exact ((c6_cache_lru_bound_and_eviction cacheW 1 "a" 4 none).2.2.2
      ("a", ⟨1, 0, 0, none⟩) rfl rfl).2

/-- C7: TTL expiry is evaluated against last-access time. A `get` on an
entry whose time since LAST ACCESS exceeds its ttl returns nothing and
removes the entry; a `get` within the ttl window returns the value and
reinserts the entry with `last_accessed` refreshed to `now` (so the entry
remains present and is again unexpired for a full ttl window after `now`,
regardless of its creation time). -/
theorem c7_cache_ttl_uses_last_access {V : Type} (c : Cache V) (key : String)
    (p : String × CacheEntry V) (t : ℚ) (now : ℚ)
    (hfind : c.entries.find? (fun q => q.1 == key) = some p)
    (httl : p.2.ttl = some t) :
    (now - p.2.last_accessed > t →
        (c.get now key).1 = none
        ∧ (c.get now key).2.entries = c.entries.filter (fun q => q.1 != key))
    ∧ (now - p.2.last_accessed ≤ t →
        (c.get now key).1 = some p.2.value
        ∧ (c.get now key).2.entries
            = c.entries.filter (fun q => q.1 != key)
              ++ [(key, { p.2 with last_accessed := now })]
        ∧ ∀ now2, now2 - now ≤ t →
            CacheEntry.is_expired { p.2 with last_accessed := now } now2
              = false) := by
  obtain ⟨k1, e⟩ := p
  have httl2 : e.ttl = some t := httl
  have hlast : e.last_accessed = (k1, e).2.last_accessed := rfl
  constructor
  · intro hlate
    have hexp : e.is_expired now = true := by
      simp only [CacheEntry.is_expired, httl2]
      exact decide_eq_true hlate
    unfold Cache.get
    rw [hfind]
    simp [hexp]
  · intro hfresh
    have hexp : e.is_expired now = false := by
      simp only [CacheEntry.is_expired, httl2]
      exact decide_eq_false (not_lt.mpr hfresh)
    refine ⟨?_, ?_, ?_⟩
    · unfold Cache.get
      rw [hfind]
      simp [hexp]
    · unfold Cache.get
      rw [hfind]
      simp [hexp]
    · intro now2 h2
      simp only [CacheEntry.is_expired, httl2]
      exact decide_eq_false (not_lt.mpr h2)

/-- A concrete cache used to witness C7: one entry created at time 0, last
accessed at time 5, with ttl 1. -/
def cacheTtlW : Cache Nat :=
  ⟨100, none, [("k", ⟨42, 0, 5, some 1⟩)], ⟨0, 0, 0, 1⟩⟩

/-- Witness for C7: at time 11/2 the entry is more than one ttl past its
CREATION but within one ttl of its last access, so `get` still returns it
(creation-time expiry would not); at time 7, more than one ttl past the
last access, `get` returns nothing and the entry is removed. -/
theorem c7_cache_ttl_uses_last_access_witness :
    ((11 / 2 : ℚ) - 0 > 1)
    ∧ (cacheTtlW.get (11 / 2) "k").1 = some 42
    ∧ (cacheTtlW.get 7 "k").1 = none
    ∧ (cacheTtlW.get 7 "k").2.entries = [] := by
  have hlive := (c7_cache_ttl_uses_last_access cacheTtlW "k"
    ("k", ⟨42, 0, 5, some 1⟩) 1 (11 / 2) rfl rfl).2 (by norm_num)
  have hdead := (c7_cache_ttl_uses_last_access cacheTtlW "k"
    ("k", ⟨42, 0, 5, some 1⟩) 1 7 rfl rfl).1 (by norm_num)
  refine ⟨by norm_num, hlive.1, hdead.1, ?_⟩
  rw [hdead.2]
  rfl

/-- A dummy scan result used in concrete cache scenarios. -/
def scanResultW : SecurityScanResult :=
  ⟨[], ⟨0, 0, 0, 0, 0, 0, 0, 0, 0, 0, 0⟩, "1.7.10", []⟩

/-- Printed form of one scanner instance. -/
def scannerReprA : String := "<SecurityScanner object at 0x7f3a10>"

/-- Printed form of a second, distinct scanner instance. -/
def scannerReprB : String := "<SecurityScanner object at 0x7f3b20>"

/-- Counterexample for C5: the memoization key of `scan` is NOT content-hash
based. Two scan calls with identical source text, filename and filters but
issued through two scanner instances derive different keys (the default key
embeds `str(args)`, which includes the instance), so the second call
re-invokes the external tool even though the source text is identical — the
first call executes the body, and so does the second. Under content-hash
keying both calls would share one key and the second would be served from
the cache. -/
theorem c5_counterexample_key_not_content_hash :
    scanCacheKey scannerReprA "x = 1" "a.py"
      ≠ scanCacheKey scannerReprB "x = 1" "a.py"
    ∧ (scanMemoized (analysisCacheInit SecurityScanResult) 0 scannerReprA
        "x = 1" "a.py" (fun _ => scanResultW)).executed = true
    ∧ (scanMemoized
        (scanMemoized (analysisCacheInit SecurityScanResult) 0 scannerReprA
          "x = 1" "a.py" (fun _ => scanResultW)).cache
        1 scannerReprB "x = 1" "a.py" (fun _ => scanResultW)).executed
      = true := by
  refine ⟨by decide, rfl, rfl⟩

/-- C5 (amended): `scan` is memoized through the analysis cache under the
DEFAULT `cached` key — function name plus printed arguments, the scanner
instance included — with ttl 1800. Two scan calls on the SAME scanner
instance with identical source text and remaining arguments derive the same
key, so the second call (within the ttl window) does not re-invoke the
external tool and returns the cached result of the first. -/
theorem c5_scan_memoized_same_instance (self_repr code filename : String)
    (body : Unit → SecurityScanResult) (now1 now2 : ℚ)
    (h : now2 - now1 ≤ 1800) :
    (scanMemoized (analysisCacheInit SecurityScanResult) now1 self_repr code
        filename body).executed = true
    ∧ (scanMemoized
        (scanMemoized (analysisCacheInit SecurityScanResult) now1 self_repr
          code filename body).cache
        now2 self_repr code filename body).executed = false
    ∧ (scanMemoized
        (scanMemoized (analysisCacheInit SecurityScanResult) now1 self_repr
          code filename body).cache
        now2 self_repr code filename body).result
      = (scanMemoized (analysisCacheInit SecurityScanResult) now1 self_repr
          code filename body).result := by
  have h1 : scanMemoized (analysisCacheInit SecurityScanResult) now1 self_repr
      code filename body
      = ⟨body (),
          ⟨300, some 1800,
            [(scanCacheKey self_repr code filename,
              ⟨body (), now1, now1, some 1800⟩)],
            ⟨0, 1, 0, 1⟩⟩, true⟩ := rfl
  have hfind : List.find?
      (fun p => p.1 == scanCacheKey self_repr code filename)
      [(scanCacheKey self_repr code filename,
        (⟨body (), now1, now1, some 1800⟩ : CacheEntry SecurityScanResult))]
      = some (scanCacheKey self_repr code filename,
          ⟨body (), now1, now1, some 1800⟩) :=
    List.find?_cons_of_pos _ (by simp)
  have hexp : CacheEntry.is_expired
      (⟨body (), now1, now1, some 1800⟩ : CacheEntry SecurityScanResult) now2
      = false := by
    simp only [CacheEntry.is_expired]
    exact decide_eq_false (not_lt.mpr h)
  have h2 : scanMemoized
      (scanMemoized (analysisCacheInit SecurityScanResult) now1 self_repr
        code filename body).cache
      now2 self_repr code filename body
      = ⟨body (),
          (scanMemoized (analysisCacheInit SecurityScanResult) now1 self_repr
            code filename body).cache.get now2
            (scanCacheKey self_repr code filename) |>.2, false⟩ := by
    rw [h1]
    unfold scanMemoized cachedCall Cache.get
    rw [hfind]
    simp [hexp]
  rw [h1] at h2
  rw [h1, h2]
  exact ⟨rfl, rfl, rfl⟩

/-- Witness for C5 (amended): concrete times 0 and 1 within the ttl window,
a concrete instance and concrete source text. -/
theorem c5_scan_memoized_same_instance_witness :
    (scanMemoized (analysisCacheInit SecurityScanResult) 0 scannerReprA
        "x = 1" "a.py" (fun _ => scanResultW)).executed = true
    ∧ (scanMemoized
        (scanMemoized (analysisCacheInit SecurityScanResult) 0 scannerReprA
          "x = 1" "a.py" (fun _ => scanResultW)).cache
        1 scannerReprA "x = 1" "a.py" (fun _ => scanResultW)).executed = false
    ∧ (scanMemoized
        (scanMemoized (analysisCacheInit SecurityScanResult) 0 scannerReprA
          "x = 1" "a.py" (fun _ => scanResultW)).cache
        1 scannerReprA "x = 1" "a.py" (fun _ => scanResultW)).result
      = (scanMemoized (analysisCacheInit SecurityScanResult) 0 scannerReprA
          "x = 1" "a.py" (fun _ => scanResultW)).result :=
  c5_scan_memoized_same_instance scannerReprA "x = 1" "a.py"
    (fun _ => scanResultW) 0 1 (by norm_num)

theorem set_preserves_value_prop {V : Type} (P : V → Prop) (c : Cache V)
    (now : ℚ) (key : String) (v : V) (ttl : Option ℚ) (hv : P v)
    (hc : ∀ p ∈ c.entries, p.1 = key → P p.2.value) :
    ∀ p ∈ (c.set now key v ttl).entries, p.1 = key → P p.2.value := by
  intro p hp hk
  simp only [Cache.set] at hp
  split at hp
  · rcases List.mem_append.mp hp with hmem | hmem
    · exact hc p (List.mem_of_mem_filter hmem) hk
    · rw [List.mem_singleton.mp hmem]
      exact hv
  · split at hp
    · have hp2 := List.mem_of_mem_tail hp
      rcases List.mem_append.mp hp2 with hmem | hmem
      · exact hc p hmem hk
      · rw [List.mem_singleton.mp hmem]
        exact hv
    · rcases List.mem_append.mp hp with hmem | hmem
      · exact hc p hmem hk
      · rw [List.mem_singleton.mp hmem]
        exact hv

theorem get_preserves_value_prop {V : Type} (P : V → Prop) (c : Cache V)
    (now : ℚ) (key : String)
    (hc : ∀ p ∈ c.entries, p.1 = key → P p.2.value) :
    ∀ p ∈ (c.get now key).2.entries, p.1 = key → P p.2.value := by
  intro p hp hk
  simp only [Cache.get] at hp
  cases hfind : c.entries.find? (fun q => q.1 == key) with
  | none =>
    rw [hfind] at hp
    exact hc p hp hk
  | some p0 =>
    obtain ⟨k0, e0⟩ := p0
    rw [hfind] at hp
    have hmem0 := List.mem_of_find?_eq_some hfind
    have hk0 : k0 = key := by
      have hpred := List.find?_some hfind
      simpa using hpred
    by_cases hexp : e0.is_expired now = true
    · simp only [hexp, if_true] at hp
      exact hc p (List.mem_of_mem_filter hp) hk
    · simp only [hexp, Bool.false_eq_true, if_false] at hp
      rcases List.mem_append.mp hp with hmem | hmem
      · exact hc p (List.mem_of_mem_filter hmem) hk
      · rw [List.mem_singleton.mp hmem]
        exact hc (k0, e0) hmem0 hk0

/-- C10: a `None` result is never memoized. `Cache.get` returns `none` both
for a missing key and for a stored `None`, so if the wrapped function's
result for the call's key is `None`, the `cached` wrapper executes the body,
returns exactly what the undecorated function returns, and leaves the cache
again holding only `None` under that key — every later call with the same
key therefore re-executes as well. -/
theorem c10_none_results_reexecute {α : Type} (c : Cache (Option α))
    (now : ℚ) (key : String) (ttl : Option ℚ) (f : Unit → Option α)
    (hf : f () = none)
    (hc : ∀ p ∈ c.entries, p.1 = key → p.2.value = none) :
    (cachedCall c now key Option.isNone ttl f).executed = true
    ∧ (cachedCall c now key Option.isNone ttl f).result = f ()
    ∧ (∀ p ∈ (cachedCall c now key Option.isNone ttl f).cache.entries,
        p.1 = key → p.2.value = none) := by
  have hval : (c.get now key).1 = none ∨ (c.get now key).1 = some none := by
    simp only [Cache.get]
    cases hfind : c.entries.find? (fun q => q.1 == key) with
    | none => exact Or.inl rfl
    | some p0 =>
      obtain ⟨k0, e0⟩ := p0
      have hmem0 := List.mem_of_find?_eq_some hfind
      have hk0 : k0 = key := by
        have hpred := List.find?_some hfind
        simpa using hpred
      have hnone : e0.value = none := hc (k0, e0) hmem0 hk0
      by_cases hexp : e0.is_expired now = true
      · left
        simp [hexp]
      · right
        simp only [Bool.not_eq_true] at hexp
        simp [hexp, hnone]
  have hrun : cachedCall c now key Option.isNone ttl f
      = ⟨f (), ((c.get now key).2).set now key (f ()) ttl, true⟩ := by
    simp only [cachedCall]
    rcases hval with hv | hv
    · rw [hv]
    · rw [hv]
      rfl
  rw [hrun]
  refine ⟨rfl, rfl, ?_⟩
  exact set_preserves_value_prop (fun v => v = none) _ now key (f ()) ttl hf
    (get_preserves_value_prop (fun v => v = none) c now key hc)

/-- Witness for C10: starting from the empty analysis cache and a function
returning `none`, the wrapper executes the body and returns `none`. -/
theorem c10_none_results_reexecute_witness :
    (cachedCall (analysisCacheInit (Option Nat)) 0 "k" Option.isNone none
        (fun _ => none)).executed = true
    ∧ (cachedCall (analysisCacheInit (Option Nat)) 0 "k" Option.isNone none
        (fun _ => none)).result = none := by
  have h := c10_none_results_reexecute (analysisCacheInit (Option Nat)) 0 "k"
    none (fun _ => none) rfl (by intro p hp; simp [analysisCacheInit] at hp)
  exact ⟨h.1, h.2.1⟩

/-- C8: the structural parser never raises (it is a total function into
`ParseResult`); empty or whitespace-only input yields the all-empty result
with no error, and input on which the AST parse fails with a non-empty
diagnostic yields that diagnostic in `error` with all collections empty. -/
theorem c8_parse_never_raises
    (ast_parse : String → Except String ModuleInfo) (code e : String) :
    (pyStrBlank code = true →
        PythonParser.parse ast_parse code = emptyParseResult
        ∧ (PythonParser.parse ast_parse code).error = none)
    ∧ (pyStrBlank code = false → ast_parse code = Except.error e → e ≠ "" →
        (PythonParser.parse ast_parse code).error = some e
        ∧ (∃ msg, (PythonParser.parse ast_parse code).error = some msg
            ∧ msg ≠ "")
        ∧ (PythonParser.parse ast_parse code).functions = []
        ∧ (PythonParser.parse ast_parse code).classes = []
        ∧ (PythonParser.parse ast_parse code).imports = []) := by
  constructor
  · intro h
    unfold PythonParser.parse
    rw [if_pos h]
    exact ⟨rfl, rfl⟩
  · intro hne herr hmsg
    unfold PythonParser.parse
    rw [if_neg (by simp [hne]), herr]
    exact ⟨rfl, ⟨e, rfl, hmsg⟩, rfl, rfl, rfl⟩

/-- Witness for C8: whitespace-only input gives the empty result; a
concrete syntactically invalid input whose AST parse fails with the message
`invalid syntax` gives that error and empty collections. -/
theorem c8_parse_never_raises_witness :
    (PythonParser.parse (fun _ => Except.error "invalid syntax") "   "
        = emptyParseResult)
    ∧ (PythonParser.parse (fun _ => Except.error "invalid syntax")
        "def f(:").error = some "invalid syntax"
    ∧ (PythonParser.parse (fun _ => Except.error "invalid syntax")
        "def f(:").functions = [] := by
  refine ⟨?_, ?_, ?_⟩
  · exact ((c8_parse_never_raises (fun _ => Except.error "invalid syntax")
      "   " "invalid syntax").1 (by decide)).1
  · exact ((c8_parse_never_raises (fun _ => Except.error "invalid syntax")
      "def f(:" "invalid syntax").2 (by decide) rfl (by decide)).1
  · exact ((c8_parse_never_raises (fun _ => Except.error "invalid syntax")
      "def f(:" "invalid syntax").2 (by decide) rfl (by decide)).2.2.1

/-- A cyclomatic-complexity boundary that always fails. -/
def ccBoom : String → Except String (List FunctionComplexity) :=
  fun _ => Except.error "radon cc failure"

/-- A maintainability boundary that succeeds with index 70. -/
def miOk70 : String → Except String ℚ :=
  fun _ => Except.ok 70

/-- A raw-metrics boundary that succeeds with small counts. -/
def rawOkSmall : String → Except String RawMetrics :=
  fun _ => Except.ok ⟨3, 2, 1, 0⟩

/-- A maintainability boundary that always fails. -/
def miBoom : String → Except String ℚ :=
  fun _ => Except.error "radon mi failure"

/-- A raw-metrics boundary that always fails. -/
def rawBoom : String → Except String RawMetrics :=
  fun _ => Except.error "radon raw failure"

/-- Counterexample for C9: the claim says that on ANY internal failure
`calculate` returns fully zeroed metrics (maintainability index 0, all
counts 0, no functions). In the code each sub-computation catches its own
failure independently, so when the cyclomatic-complexity stage fails while
the maintainability and line-count stages succeed, the result keeps the
non-zero maintainability index 70 and non-zero line counts. -/
theorem c9_counterexample_partial_failure :
    ccBoom "x = 1" = Except.error "radon cc failure"
    ∧ (ComplexityCalculator.calculate ccBoom miOk70 rawOkSmall
        "x = 1").functions = []
    ∧ (ComplexityCalculator.calculate ccBoom miOk70 rawOkSmall
        "x = 1").maintainability_index = 70
    ∧ (ComplexityCalculator.calculate ccBoom miOk70 rawOkSmall
        "x = 1").lines_of_code = 3
    ∧ (ComplexityCalculator.calculate ccBoom miOk70 rawOkSmall
        "x = 1").maintainability_index ≠ 0 := by
  have hblank : pyStrBlank "x = 1" = false := by decide
  have hround : roundTo2 70 = 70 := by
    unfold roundTo2
    norm_num
  have hmi : (ComplexityCalculator.calculate ccBoom miOk70 rawOkSmall
      "x = 1").maintainability_index = 70 := by
    unfold ComplexityCalculator.calculate
      ComplexityCalculator.calcMaintainability
    rw [if_neg (by simp [hblank])]
    exact hround
  refine ⟨rfl, ?_, hmi, ?_, ?_⟩
  · unfold ComplexityCalculator.calculate ComplexityCalculator.calcCyclomatic
    rw [if_neg (by simp [hblank])]
    rfl
  · unfold ComplexityCalculator.calculate ComplexityCalculator.calcLoc
    rw [if_neg (by simp [hblank])]
    rfl
  · rw [hmi]
    norm_num

/-- C9 (amended): empty or whitespace-only input returns maintainability
index 100 with zero counts and no functions; `calculate` never raises, and
each sub-computation degrades independently on failure — a failing
complexity stage yields no function records, a failing maintainability
stage yields index 0, a failing line-count stage yields zero counts, and
when all three fail the result is fully zeroed. -/
theorem c9_calculate_empty_and_degradation
    (cc : String → Except String (List FunctionComplexity))
    (mi : String → Except String ℚ)
    (raw : String → Except String RawMetrics) (code : String) :
    (pyStrBlank code = true →
        ComplexityCalculator.calculate cc mi raw code = ⟨[], 100, 0, 0, 0, 0⟩)
    ∧ (pyStrBlank code = false →
        (∀ e, cc code = Except.error e →
          (ComplexityCalculator.calculate cc mi raw code).functions = [])
        ∧ (∀ e, mi code = Except.error e →
          (ComplexityCalculator.calculate cc mi raw
            code).maintainability_index = 0)
        ∧ (∀ e, raw code = Except.error e →
          (ComplexityCalculator.calculate cc mi raw code).lines_of_code = 0
          ∧ (ComplexityCalculator.calculate cc mi raw code).logical_lines = 0
          ∧ (ComplexityCalculator.calculate cc mi raw code).comment_lines = 0
          ∧ (ComplexityCalculator.calculate cc mi raw code).blank_lines = 0)
        ∧ (∀ e1 e2 e3, cc code = Except.error e1 → mi code = Except.error e2 →
            raw code = Except.error e3 →
            ComplexityCalculator.calculate cc mi raw code
              = ⟨[], 0, 0, 0, 0, 0⟩)) := by
  constructor
  · intro h
    unfold ComplexityCalculator.calculate
    rw [if_pos h]
  · intro hne
    refine ⟨?_, ?_, ?_, ?_⟩
    · intro e he
      unfold ComplexityCalculator.calculate
        ComplexityCalculator.calcCyclomatic
      rw [if_neg (by simp [hne]), he]
    · intro e he
      unfold ComplexityCalculator.calculate
        ComplexityCalculator.calcMaintainability
      rw [if_neg (by simp [hne]), he]
    · intro e he
      unfold ComplexityCalculator.calculate ComplexityCalculator.calcLoc
      rw [if_neg (by simp [hne]), he]
      exact ⟨rfl, rfl, rfl, rfl⟩
    · intro e1 e2 e3 h1 h2 h3
      unfold ComplexityCalculator.calculate
        ComplexityCalculator.calcCyclomatic
        ComplexityCalculator.calcMaintainability ComplexityCalculator.calcLoc
      rw [if_neg (by simp [hne]), h1, h2, h3]

/-- Witness for C9 (amended): whitespace-only input gives the perfect
result; a concrete input on which all three boundaries fail gives the fully
zeroed result. -/
theorem c9_calculate_empty_and_degradation_witness :
    ComplexityCalculator.calculate ccBoom miBoom rawBoom "   "
        = ⟨[], 100, 0, 0, 0, 0⟩
    ∧ ComplexityCalculator.calculate ccBoom miBoom rawBoom "x"
        = ⟨[], 0, 0, 0, 0, 0⟩ := by
  constructor
  · exact (c9_calculate_empty_and_degradation ccBoom miBoom rawBoom "   ").1
      (by decide)
  · exact ((c9_calculate_empty_and_degradation ccBoom miBoom rawBoom
      "x").2 (by decide)).2.2.2 "radon cc failure" "radon mi failure"
      "radon raw failure" rfl rfl rfl

/-- C1 (amended): in an aggregated file, the i-th function record is built
from the i-th parsed function; its complexity and rank come from the FIRST
complexity-stage entry with the same NAME (line ranges are not consulted),
defaulting to complexity 0 and rank `A` when no name matches; its security
issues are exactly the findings whose line number lies in the function's
line span; and `is_changed` holds iff some changed line lies in that span. -/
theorem c1_aggregate_join (thr : Nat) (filename : String) (pr : ParseResult)
    (cr : FileComplexity) (sr : SecurityScanResult) (cl : Option (List Nat))
    (i : Nat) (fa : FunctionAnalysis) (pf : FunctionInfo)
    (hfa : (AnalysisPipeline.aggregate_results thr filename pr cr sr
        cl).functions[i]? = some fa)
    (hpf : pr.functions[i]? = some pf) :
    (∀ c, cr.functions.find? (fun q => q.name == pf.name) = some c →
        fa.complexity = c.complexity ∧ fa.complexity_rank = c.rank)
    ∧ (cr.functions.find? (fun q => q.name == pf.name) = none →
        fa.complexity = 0 ∧ fa.complexity_rank = "A")
    ∧ (∀ issue, issue ∈ fa.security_issues ↔
        (issue ∈ sr.issues ∧ pf.line_start ≤ issue.line_number
          ∧ issue.line_number ≤ pf.line_end))
    ∧ (fa.is_changed = true ↔
        ∃ l ∈ cl.getD [], pf.line_start ≤ l ∧ l ≤ pf.line_end) := by
  have hmap : (AnalysisPipeline.aggregate_results thr filename pr cr sr
      cl).functions
      = pr.functions.map
          (buildFunctionAnalysis thr cr.functions sr.issues cl) := rfl
  rw [hmap, List.getElem?_map, hpf] at hfa
  have hfa2 : fa = buildFunctionAnalysis thr cr.functions sr.issues cl pf :=
    (Option.some.inj hfa).symm
  subst hfa2
  refine ⟨?_, ?_, ?_, ?_⟩
  · intro c hc
    simp [buildFunctionAnalysis, hc]
  · intro hc
    simp [buildFunctionAnalysis, hc]
  · intro issue
    simp only [buildFunctionAnalysis]
    simp [List.mem_filter, Bool.and_eq_true, decide_eq_true_eq, and_assoc]
  · cases cl with
    | none => simp [buildFunctionAnalysis, changedLinesTruthy]
    | some ls =>
      cases ls with
      | nil => simp [buildFunctionAnalysis, changedLinesTruthy]
      | cons a t =>
        simp [buildFunctionAnalysis, changedLinesTruthy, List.any_eq_true,
          Bool.and_eq_true, decide_eq_true_eq]

/-- Statement of the claim's join, written from the SPECIFICATION's words
for comparison against the code (it is deliberately NOT a translation of
any source line): a complexity entry matches a parsed function only if the
names agree AND the function's line range is contained in the entry's line
range. -/
def specComplexityJoin (cs : List FunctionComplexity) (pf : FunctionInfo) :
    Option FunctionComplexity :=
  cs.find? (fun c => c.name == pf.name
    && decide (c.line_start ≤ pf.line_start)
    && decide (pf.line_end ≤ c.line_end))

/-- A parsed function `f` spanning lines 10-12. -/
def pfX : FunctionInfo := ⟨"f", 10, 12, [], none, none, [], false⟩

/-- A parse result containing only `pfX`. -/
def prX : ParseResult := ⟨[pfX], [], [], none, 12, none⟩

/-- A complexity result whose only entry is a DIFFERENT function also named
`f`, spanning lines 1-3 with complexity 7. -/
def crX : FileComplexity := ⟨[⟨"f", 7, 1, 3, "B"⟩], 80, 12, 10, 0, 2⟩

/-- Counterexample for C1: the claim says the complexity join matches by
name PLUS containment of the function's line range, defaulting to
complexity 0 when no entry matches. For a parsed `f` at lines 10-12 and a
complexity entry `f` at lines 1-3, no entry matches under the claim's join
(`specComplexityJoin` yields none, so the claim predicts complexity 0), yet
the code joins by name alone and assigns complexity 7. -/
theorem c1_counterexample_name_only_join :
    ((AnalysisPipeline.aggregate_results 5 "a.py" prX crX scanResultW
        none).functions.map (fun fa => fa.complexity)) = [7]
    ∧ specComplexityJoin crX.functions pfX = none
    ∧ (7 : Nat) ≠ 0 :=
  ⟨rfl, rfl, by decide⟩

/-- A parsed function `g` spanning lines 4-7. -/
def pfW : FunctionInfo := ⟨"g", 4, 7, [], none, none, [], false⟩

/-- A parse result containing only `pfW`. -/
def prW : ParseResult := ⟨[pfW], [], [], none, 7, none⟩

/-- A complexity result with a matching entry for `g`. -/
def crW : FileComplexity := ⟨[⟨"g", 3, 4, 7, "A"⟩], 90, 7, 5, 0, 1⟩

/-- A finding inside the span of `g`. -/
def issueW1 : SecurityIssue :=
  ⟨"B602", "subprocess_popen_with_shell_equals_true", Severity.HIGH,
    Confidence.HIGH, 5, "subprocess.call(cmd, shell=True)", "a.py",
    "shell injection"⟩

/-- A finding outside the span of `g`. -/
def issueW2 : SecurityIssue :=
  ⟨"B105", "hardcoded_password_string", Severity.LOW, Confidence.MEDIUM, 30,
    "password = secret", "a.py", "hardcoded password"⟩

/-- A scan result with one finding inside and one outside the span of `g`. -/
def srW : SecurityScanResult :=
  ⟨[issueW1, issueW2], ⟨7, 2, 1, 0, 1, 0, 1, 1, 0, 0, 1⟩, "1.7.10", []⟩

/-- A changed-line set touching line 5 (inside `g`) and line 20 (outside). -/
def clW : Option (List Nat) := some [5, 20]

/-- The function record the pipeline aggregates for `pfW`. -/
def faW : FunctionAnalysis :=
  buildFunctionAnalysis 5 crW.functions srW.issues clW pfW

/-- Witness for C1 (amended) at a concrete aggregation: the record for `g`
(lines 4-7) takes complexity 3 and rank `A` from the name-matching entry,
keeps exactly the finding at line 5 (not the one at line 30), and is marked
changed because changed line 5 lies in its span. -/
theorem c1_aggregate_join_witness :
    (AnalysisPipeline.aggregate_results 5 "a.py" prW crW srW
        clW).functions[0]? = some faW
    ∧ faW.complexity = 3 ∧ faW.complexity_rank = "A"
    ∧ issueW1 ∈ faW.security_issues
    ∧ issueW2 ∉ faW.security_issues
    ∧ faW.is_changed = true := by
  have h := c1_aggregate_join 5 "a.py" prW crW srW clW 0 faW pfW rfl rfl
  refine ⟨rfl, (h.1 ⟨"g", 3, 4, 7, "A"⟩ rfl).1,
    (h.1 ⟨"g", 3, 4, 7, "A"⟩ rfl).2, ?_, ?_, ?_⟩
  · exact (h.2.2.1 issueW1).mpr ⟨by decide, by decide, by decide⟩
  · intro hmem
    exact absurd ((h.2.2.1 issueW2).mp hmem).2.2 (by decide)
  · exact (h.2.2.2).mpr ⟨5, by decide, by decide⟩

end AutoCodeReview
